import Mathlib

/- Shallow embedding of the artifact acquisition and caching subsystem, the environment
   bootstrap and the preprocessing pipeline of inference/core/models/roboflow.py, together
   with the relevant parts of inference/core/roboflow_api.py and
   inference/models/doctr/doctr_model.py. Machine integers do not occur; filesystem and
   network effects are made explicit as threaded state (the set of cached file names) and
   a recorded list of network operations. -/

/-- Exception kinds raised on the embedded code paths. The constructor
`artifactDownloadError` comes from the design document error taxonomy (section 7); the
sources under scrutiny never raise it, which is material for one of the claims. -/
inductive RfError where
  | missingApiKeyError
  | modelArtefactError (msg : String)
  | artifactDownloadError (msg : String)
  | valueError (msg : String)
  | typeError (msg : String)
  | attributeError (msg : String)
  | unboundLocalError (name : String)
  deriving DecidableEq, Repr

/-- Python truthiness of an optional string environment variable: None and the empty
string are falsy, every other string is truthy. -/
def truthyOpt : Option String → Bool
  | none => false
  | some s => !(s == "")

/-- Boolean test of an Except value. -/
def exceptIsOk {ε α : Type} : Except ε α → Bool
  | .ok _ => true
  | .error _ => false

/-- True exactly for the bulk source failure kind named in the design document. -/
def RfError.isArtifactDownloadError : RfError → Bool
  | .artifactDownloadError _ => true
  | _ => false

/-- Process wide configuration read by roboflow.py at import time. The module
inference/core/env.py is not among the provided sources. Modelled from the spec: the
design document (sections 4.2 and 7) describes object store credentials, a LAMBDA
deployment flag, a global API key and the bulk bucket name as process wide configuration
evaluated once at process start. -/
structure ProcState where
  AWS_ACCESS_KEY_ID : Option String
  AWS_SECRET_ACCESS_KEY : Option String
  LAMBDA : Bool
  boto3Ok : Bool
  INFER_BUCKET : String
  API_KEY : Option String

/-- Module level S3 client construction, roboflow.py lines 68-80. The source guard tests
AWS_ACCESS_KEY_ID twice (it never looks at the secret key here); the client is None when
the guard fails or when the boto3 import or client construction raises. -/
def S3_CLIENT (st : ProcState) : Option Unit :=
  if truthyOpt st.AWS_ACCESS_KEY_ID && truthyOpt st.AWS_ACCESS_KEY_ID && st.boto3Ok then
    some ()
  else
    none

/-- roboflow.py lines 793-796: the bulk object store is available when both credentials
are truthy, the LAMBDA flag is set and the module level client is not None. -/
def is_model_artefacts_bucket_available (st : ProcState) : Bool :=
  truthyOpt st.AWS_ACCESS_KEY_ID && truthyOpt st.AWS_SECRET_ACCESS_KEY && st.LAMBDA
    && (S3_CLIENT st).isSome

/-- Variant specific data of a model class: the list returned by
get_infer_bucket_file_list and the weights_file property. -/
structure ModelSpec where
  inferBucketFileList : List String
  weightsFile : String

/-- roboflow.py lines 257-260: the variant list composed with the weights file name. -/
def get_all_required_infer_bucket_file (m : ModelSpec) : List String :=
  m.inferBucketFileList ++ [m.weightsFile]

/-- OnnxRoboflowInferenceModel: lines 659-665 and 738-745. -/
def onnxModelSpec : ModelSpec :=
  ⟨["environment.json", "class_names.txt"], "weights.onnx"⟩

/-- Modelled from the spec: are_all_files_cached lives in
inference/core/cache/model_artefacts.py, which is not among the provided sources.
Design document section 4.1 CacheStore: true only if every named file exists under the
per model cache directory. The cache is the list of file names present. -/
def are_all_files_cached (files : List String) (cache : List String) : Bool :=
  files.all (fun f => decide (f ∈ cache))

/-- Modelled from the spec: whole file save through the CacheStore (section 4.1); at the
level of the present development only the presence of the file name matters. -/
def cacheAdd (cache : List String) (f : String) : List String :=
  if f ∈ cache then cache else cache ++ [f]

/-- One network operation performed by the fetch layer. -/
inductive NetOp where
  | s3BulkDownload (bucket : String) (keys : List String)
  | apiModelData (endpointType : String) (modelId : String)
  | apiGet (url : String)
  deriving DecidableEq, Repr

/-- True for the per file authenticated API operations, false for the bulk path. -/
def NetOp.isApi : NetOp → Bool
  | .s3BulkDownload _ _ => false
  | _ => true

/-- Preprocessing resize block of the parsed PREPROCESSING JSON value. -/
structure ResizeSpec where
  format : Option String
  height : Int
  width : Int
  deriving DecidableEq, Repr

/-- Parsed PREPROCESSING value: the resize block when the resize key holds a truthy
value, and whether the auto-orient key is present. -/
structure Preproc where
  resize : Option ResizeSpec
  hasAutoOrient : Bool
  deriving DecidableEq, Repr

/-- The three recognized resize policies, roboflow.py lines 346-355. -/
inductive ResizeMethod where
  | stretchTo
  | fitBlackEdges
  | fitWhiteEdges
  deriving DecidableEq, Repr

/-- roboflow.py lines 346-355: the declared format string defaults to Stretch to and any
value outside the three recognized policies falls back to Stretch to; a missing or falsy
resize block also yields Stretch to. -/
def resolve_resize_method (preproc : Preproc) : ResizeMethod :=
  match preproc.resize with
  | some r =>
    let fmt := r.format.getD "Stretch to"
    if fmt == "Fit (black edges) in" then .fitBlackEdges
    else if fmt == "Fit (white edges) in" then .fitWhiteEdges
    else .stretchTo
  | none => .stretchTo

/-- The CLASS_MAP value of the environment: a dict of string keys to string values, or a
value of some other runtime type (the source tests issubclass of dict). -/
inductive ClassMapVal where
  | dict (entries : List (String × String))
  | nonDict
  deriving DecidableEq, Repr

/-- The parsed environment.json contents. COLORS is modelled as the dict the repository
itself writes into the file (roboflow.py lines 311-316); PREPROCESSING is kept as its
parse result since the raw JSON string is re-parsed downstream unchanged. -/
structure CachedEnvironment where
  CLASS_MAP : Option ClassMapVal
  COLORS : Option (List (String × String))
  PREPROCESSING : Option Preproc
  deriving DecidableEq, Repr

/-- Python sorted on strings compares code points lexicographically. -/
def py_str_lt : List Char → List Char → Bool
  | [], [] => false
  | [], _ :: _ => true
  | _ :: _, [] => false
  | a :: as, b :: bs =>
    if a.toNat < b.toNat then true
    else if b.toNat < a.toNat then false
    else py_str_lt as bs

/-- Non strict code point order on strings. -/
def py_str_le (a b : String) : Bool :=
  a == b || py_str_lt a.data b.data

/-- Stable insertion of a key into an already sorted list of keys. -/
def insert_key (x : String) : List String → List String
  | [] => [x]
  | y :: ys => if py_str_le x y then x :: y :: ys else y :: insert_key x ys

/-- Python builtin sorted on a list of strings (insertion sort, code point order). -/
def py_sorted : List String → List String
  | [] => []
  | k :: ks => insert_key k (py_sorted ks)

/-- Dict lookup; on a dict the keys are unique so find? agrees with subscription. -/
def dict_get (entries : List (String × String)) (k : String) : Option String :=
  match entries.find? (fun e => e.1 == k) with
  | some e => some e.2
  | none => none

/-- roboflow.py lines 768-771. -/
def class_mapping_not_available_in_environment (environment : CachedEnvironment) : Bool :=
  match environment.CLASS_MAP with
  | some (.dict _) => false
  | _ => true

/-- roboflow.py lines 754-765: class names are the CLASS_MAP values subscripted in the
order of the sorted (string) keys. -/
def get_class_names_from_environment_file (environment : Option CachedEnvironment) :
    Except RfError (List String) :=
  match environment with
  | none =>
    .error (.modelArtefactError "Missing environment while attempting to get model class names.")
  | some env =>
    match env.CLASS_MAP with
    | some (.dict entries) =>
      .ok ((py_sorted (entries.map Prod.fst)).map (fun k => (dict_get entries k).getD ""))
    | _ =>
      .error (.modelArtefactError "Missing CLASS_MAP in environment or CLASS_MAP is not dict.")

/-- roboflow.py lines 82-92. -/
def DEFAULT_COLOR_PALETTE : List String :=
  ["#4892EA", "#00EEC3", "#FE4EF0", "#F4004E", "#FA7200", "#EEEE17", "#90FF00",
   "#78C1D2", "#8C29FF"]

/-- roboflow.py lines 785-790: COLORS must be present and of dict runtime type. -/
def color_mapping_available_in_environment (environment : Option CachedEnvironment) : Bool :=
  match environment with
  | some env => env.COLORS.isSome
  | none => false

/-- roboflow.py lines 774-782. When the guard holds, line 778 applies json.loads to
environment subscripted at COLORS, a value the guard just required to be a dict;
json.loads raises TypeError on every argument that is not str, bytes or bytearray, so
this branch always raises. Otherwise colors cycle the nine entry default palette in
class index order. -/
def get_color_mapping_from_environment (environment : Option CachedEnvironment)
    (class_names : List String) : Except RfError (List (String × String)) :=
  if color_mapping_available_in_environment environment then
    .error (.typeError "the JSON object must be str, bytes or bytearray, not dict")
  else
    .ok (class_names.enum.map
      (fun p => (p.2, (DEFAULT_COLOR_PALETTE.get? (p.1 % DEFAULT_COLOR_PALETTE.length)).getD "")))

/-- On disk contents of the per model cache directory that the loader reads: the parse
of environment.json and the lines of class_names.txt. -/
structure CacheContents where
  environment : CachedEnvironment
  classLines : List String
  deriving DecidableEq, Repr

/-- The fields the loader assigns on the model instance. -/
structure LoadedArtefacts where
  class_names : List String
  colors : List (String × String)
  num_classes : Nat
  preproc : Preproc
  resize_method : ResizeMethod
  deriving DecidableEq, Repr

/-- Reading an instance attribute that may never have been assigned raises
AttributeError. -/
def getAttr {α : Type} (attr : Option α) (name : String) : Except RfError α :=
  match attr with
  | some a => .ok a
  | none => .error (.attributeError name)

/-- roboflow.py lines 318-356, load_model_artefacts_from_cache. The environment attribute
is only assigned when environment.json is in the file list; class names come from
class_names.txt when it is in the file list and otherwise from CLASS_MAP; then the color
map is built, and a missing PREPROCESSING key is fatal; finally the resize method is
resolved with fallback to Stretch to. -/
def load_model_artefacts_from_cache (m : ModelSpec) (cc : CacheContents) :
    Except RfError LoadedArtefacts := do
  let infer_bucket_files := get_all_required_infer_bucket_file m
  let environmentAttr : Option CachedEnvironment :=
    if "environment.json" ∈ infer_bucket_files then some cc.environment else none
  let class_names ←
    if "class_names.txt" ∈ infer_bucket_files then
      pure cc.classLines
    else do
      let env ← getAttr environmentAttr "environment"
      get_class_names_from_environment_file (some env)
  let env ← getAttr environmentAttr "environment"
  let colors ← get_color_mapping_from_environment (some env) class_names
  let num_classes := class_names.length
  let preproc ←
    match env.PREPROCESSING with
    | none => Except.error (.modelArtefactError "Could not find PREPROCESSING key in environment file.")
    | some p => Except.ok p
  let resize_method := resolve_resize_method preproc
  return ⟨class_names, colors, num_classes, preproc, resize_method⟩

/-- The ort block of the ORT endpoint response of the Roboflow API. -/
structure OrtData where
  classes : Option (List String)
  model : Option String
  environment : Option String
  colors : Option (List (String × String))

/-- External world behind the network boundary: the metadata responses, the JSON body a
GET on a url yields, whether a given weights download exceeds the 120 second threshold,
and the outcome of the bulk S3 download (error message on failure). -/
structure ApiWorld where
  ortData : Option OrtData
  envJson : String → CachedEnvironment
  coreWeightsMap : Option (List (String × String))
  downloadTookLong : String → Bool
  s3Result : Except String Unit

/-- Result of one fetch step: the raised exception if any, the cache contents after the
step, and the network operations performed. -/
structure FetchOut where
  error : Option RfError
  cache : List String
  ops : List NetOp
  deriving Repr

/-- roboflow.py lines 262-277: one bulk download of every manifest file, keyed
modelId/filename; any exception is wrapped and re-raised as ModelArtefactError. -/
def download_model_artefacts_from_s3 (st : ProcState) (w : ApiWorld) (m : ModelSpec)
    (modelId : String) (cache : List String) : FetchOut :=
  let infer_bucket_files := get_all_required_infer_bucket_file m
  let s3_keys := infer_bucket_files.map (fun f => modelId ++ "/" ++ f)
  match w.s3Result with
  | .ok _ =>
    ⟨none, infer_bucket_files.foldl cacheAdd cache, [.s3BulkDownload st.INFER_BUCKET s3_keys]⟩
  | .error e =>
    ⟨some (.modelArtefactError ("Could not obtain model artefacts from S3. Cause: " ++ e)),
     cache, [.s3BulkDownload st.INFER_BUCKET s3_keys]⟩

/-- roboflow.py lines 279-316: the ORT metadata request, validation of the ort, model and
environment keys, the class list saved when present, then the environment JSON and the
weights body fetched by GET and persisted. Transport failures of the GETs are out of
scope here; the recorded operations and saved file names are what the claims consult. -/
def download_model_artefacts_from_roboflow_api (w : ApiWorld) (m : ModelSpec)
    (modelId : String) (cache : List String) : FetchOut :=
  let op0 := NetOp.apiModelData "ort" modelId
  match w.ortData with
  | none =>
    ⟨some (.modelArtefactError "Could not find ort key in roboflow API model description response."),
     cache, [op0]⟩
  | some d =>
    let cache1 := match d.classes with
      | some _ => cacheAdd cache "class_names.txt"
      | none => cache
    match d.model with
    | none =>
      ⟨some (.modelArtefactError "Could not find model key in roboflow API model description response."),
       cache1, [op0]⟩
    | some modelUrl =>
      match d.environment with
      | none =>
        ⟨some (.modelArtefactError "Could not find environment key in roboflow API model description response."),
         cache1, [op0]⟩
      | some envUrl =>
        let cache2 := cacheAdd cache1 m.weightsFile
        let cache3 := cacheAdd cache2 "environment.json"
        ⟨none, cache3, [op0, .apiGet envUrl, .apiGet modelUrl]⟩

/-- roboflow.py lines 248-255: skip when every manifest file is cached, else bulk S3 when
available, else the per file API path. -/
def cache_model_artefacts (st : ProcState) (w : ApiWorld) (m : ModelSpec)
    (modelId : String) (cache : List String) : FetchOut :=
  let infer_bucket_files := get_all_required_infer_bucket_file m
  if are_all_files_cached infer_bucket_files cache then
    ⟨none, cache, []⟩
  else if is_model_artefacts_bucket_available st then
    download_model_artefacts_from_s3 st w m modelId cache
  else
    download_model_artefacts_from_roboflow_api w m modelId cache

/-- Python str.split with a one character separator: empty segments are kept and the
empty string yields one empty segment. -/
def py_split_on_char (c : Char) : List Char → List (List Char)
  | [] => [[]]
  | x :: xs =>
    let r := py_split_on_char c xs
    if x = c then [] :: r
    else
      match r with
      | [] => [[x]]
      | h :: t => (x :: h) :: t

/-- Python str.split lifted to String. -/
def py_split (c : Char) (s : String) : List String :=
  (py_split_on_char c s.data).map (fun l => ⟨l⟩)

/-- roboflow.py line 573: url.split at the question mark, first part, split at slash,
last part. -/
def filename_from_url (url : String) : String :=
  ((py_split '/' ((py_split '?' url).headD "")).getLastD "")

/-- roboflow.py lines 569-588, the loop of download_mode_from_roboflow_api: each weights
url is fetched, the body saved under the basename of the url, and when a download exceeds
120 seconds the metadata request is reissued before continuing. The refreshed response is
modelled as identical to the first (the world is constant). -/
def core_weights_download_loop (w : ApiWorld) (modelId : String) (cache : List String)
    (ops : List NetOp) : List (String × String) → List String × List NetOp
  | [] => (cache, ops)
  | e :: rest =>
    let url := e.2
    let cache1 := cacheAdd cache (filename_from_url url)
    let ops1 := ops ++ [NetOp.apiGet url]
      ++ (if w.downloadTookLong url then [NetOp.apiModelData "core_model" modelId] else [])
    core_weights_download_loop w modelId cache1 ops1 rest

/-- roboflow.py lines 558-588: the core model metadata request; a missing weights key is
fatal; otherwise every listed weights url is downloaded in order. -/
def download_mode_from_roboflow_api (w : ApiWorld) (modelId : String)
    (cache : List String) : FetchOut :=
  let op0 := NetOp.apiModelData "core_model" modelId
  match w.coreWeightsMap with
  | none =>
    ⟨some (.modelArtefactError "weights key not available in Roboflow API response while downloading model weights."),
     cache, [op0]⟩
  | some entries =>
    let r := core_weights_download_loop w modelId cache [op0] entries
    ⟨none, r.1, r.2⟩

/-- roboflow.py lines 544-556, RoboflowCoreModel.download_weights: the cache existence
test consults only get_infer_bucket_file_list, without the weights file name. -/
def download_weights (st : ProcState) (w : ApiWorld) (m : ModelSpec) (modelId : String)
    (cache : List String) : FetchOut :=
  if are_all_files_cached m.inferBucketFileList cache then
    ⟨none, cache, []⟩
  else if is_model_artefacts_bucket_available st then
    download_model_artefacts_from_s3 st w m modelId cache
  else
    download_mode_from_roboflow_api w modelId cache

/-- roboflow.py lines 122-126: model_id.split at the slash unpacked into dataset and
version; any segment count other than two raises ValueError. -/
def parse_model_id (model_id : String) : Except RfError (String × String) :=
  match py_split '/' model_id with
  | [d, v] => .ok (d, v)
  | _ => .error (.valueError "model_id does not unpack into exactly two values")

/-- roboflow.py lines 98-126, RoboflowInferenceModel constructor: the per request key
falls back to the global API_KEY when falsy; a missing key is fatal unless both AWS keys
and the LAMBDA flag are set; then the model id is split. -/
def roboflow_model_init (st : ProcState) (model_id : String) (api_key : Option String) :
    Except RfError (String × String) :=
  let key := if truthyOpt api_key then api_key else st.API_KEY
  if !truthyOpt key
      && !(truthyOpt st.AWS_SECRET_ACCESS_KEY && truthyOpt st.AWS_ACCESS_KEY_ID && st.LAMBDA) then
    .error .missingApiKeyError
  else
    parse_model_id model_id

/-- One onnxruntime input dimension: a symbolic name or a concrete integer. -/
inductive OnnxDim where
  | symbolic (s : String)
  | concrete (n : Int)
  deriving DecidableEq, Repr

/-- The isinstance str test of roboflow.py lines 693 and 701. -/
def OnnxDim.isStr : OnnxDim → Bool
  | .symbolic _ => true
  | .concrete _ => false

/-- The four reported input dimensions: batch, channels, height, width. -/
structure InputShape where
  d0 : OnnxDim
  d1 : OnnxDim
  d2 : OnnxDim
  d3 : OnnxDim
  deriving DecidableEq, Repr

/-- The geometry fields assigned by OnnxRoboflowInferenceModel initialization. -/
structure ModelGeometry where
  batch_size : OnnxDim
  img_size_h : Int
  img_size_w : Int
  batching_enabled : Bool
  deriving DecidableEq, Repr

/-- roboflow.py lines 687-706: when height or width is symbolic both are replaced, by the
declared resize height and width when the resize key is present in the preprocessing
spec and by 640 otherwise; a symbolic batch dimension enables dynamic batching, a
concrete one fixes the batch size and disables it. -/
def resolve_input_geometry (input_shape : InputShape) (preproc : Preproc) : ModelGeometry :=
  let batch_size := input_shape.d0
  let hw : Int × Int :=
    match input_shape.d2, input_shape.d3 with
    | .concrete hn, .concrete wn => (hn, wn)
    | _, _ =>
      match preproc.resize with
      | some r => (r.height, r.width)
      | none => (640, 640)
  let batching_enabled :=
    match batch_size with
    | .symbolic _ => true
    | .concrete _ => false
  ⟨batch_size, hw.1, hw.2, batching_enabled⟩

/-- The four per call disable flags of the preprocessing entry points. -/
structure PreprocFlags where
  disable_preproc_auto_orient : Bool
  disable_preproc_contrast : Bool
  disable_preproc_grayscale : Bool
  disable_preproc_static_crop : Bool
  deriving DecidableEq, Repr

/-- External image processing collaborators of preproc_image (the utils and cv2 layers,
out of scope for this repository per the design document): image decode and orient,
prepare, the two resize kinds, color conversion and the transpose plus cast plus float
step that yields one batch slice. -/
structure ImageOps (Img Slice : Type) where
  loadImageUtil : Img → Bool → Img × Bool
  prepare : Img → PreprocFlags → Img × (Nat × Nat)
  resizeStretch : Img → Nat → Nat → Img
  letterbox : Img → Nat → Nat → (Nat × Nat × Nat) → Img
  cvtBgr2Rgb : Img → Img
  transposeCast : Img → Slice

/-- The model instance state preproc_image consults. -/
structure RuntimeConfig where
  resize_method : ResizeMethod
  img_size_h : Nat
  img_size_w : Nat
  preprocHasAutoOrient : Bool
  DISABLE_PREPROC_AUTO_ORIENT : Bool
  deriving DecidableEq, Repr

/-- roboflow.py lines 427-479, the body of preproc_image up to and including the
transpose and cast, before the leading batch axis is added: decode with the combined
auto orient decision, prepare, resize by the resolved method, BGR to RGB when needed. -/
def preproc_image_core {Img Slice : Type} (ops : ImageOps Img Slice) (cfg : RuntimeConfig)
    (flags : PreprocFlags) (image : Img) : Slice × (Nat × Nat) :=
  let r := ops.loadImageUtil image
    (flags.disable_preproc_auto_orient || !cfg.preprocHasAutoOrient
      || cfg.DISABLE_PREPROC_AUTO_ORIENT)
  let np_image := r.1
  let is_bgr := r.2
  let p := ops.prepare np_image flags
  let preprocessed_image := p.1
  let img_dims := p.2
  let resized :=
    match cfg.resize_method with
    | .stretchTo => ops.resizeStretch preprocessed_image cfg.img_size_w cfg.img_size_h
    | .fitBlackEdges => ops.letterbox preprocessed_image cfg.img_size_w cfg.img_size_h (0, 0, 0)
    | .fitWhiteEdges => ops.letterbox preprocessed_image cfg.img_size_w cfg.img_size_h (255, 255, 255)
  let rgb := if is_bgr then ops.cvtBgr2Rgb resized else resized
  (ops.transposeCast rgb, img_dims)

/-- roboflow.py line 480: np.expand_dims at axis 0 adds a leading batch axis of size one;
a tensor is modelled as its list of batch slices. -/
def preproc_image {Img Slice : Type} (ops : ImageOps Img Slice) (cfg : RuntimeConfig)
    (flags : PreprocFlags) (image : Img) : List Slice × (Nat × Nat) :=
  let r := preproc_image_core ops cfg flags image
  ([r.1], r.2)

/-- roboflow.py lines 708-736, OnnxRoboflowInferenceModel.load_image: a list input is
mapped over the worker pool (ThreadPoolExecutor.map preserves input order), unzipped and
concatenated along the batch axis; on the empty list the unpacking of zip raises
ValueError, as does np.concatenate of nothing. A single image goes through preproc_image
and its dimensions are wrapped in a singleton list. -/
def load_image_onnx {Img Slice : Type} (ops : ImageOps Img Slice) (cfg : RuntimeConfig)
    (flags : PreprocFlags) : Img ⊕ List Img → Except RfError (List Slice × List (Nat × Nat))
  | .inr images =>
    if images.isEmpty then
      .error (.valueError "not enough values to unpack")
    else
      let imgs_with_dims := images.map (preproc_image ops cfg flags)
      .ok ((imgs_with_dims.map Prod.fst).flatten, imgs_with_dims.map Prod.snd)
  | .inl image =>
    let r := preproc_image ops cfg flags image
    .ok (r.1, [r.2])

/-- The local names bound at entry of DocTR.__init__ (doctr_model.py line 21): the
parameters self, the starred args tuple and the kwargs dict. model_id is assigned inside
the body, so Python compiles it as a local of the function. -/
def doctr_init_local_names : List String := ["self", "args", "kwargs"]

/-- Reading a local variable before any assignment to it raises UnboundLocalError. -/
def read_local (bound : List String) (name : String) : Except RfError Unit :=
  if name ∈ bound then .ok () else .error (.unboundLocalError name)

/-- doctr_model.py lines 21-51, DocTR.__init__: the first statement of the body reads the
local model_id on its right hand side before any assignment to it; everything after that
first read is an arbitrary continuation. -/
def DocTR_init (rest : Unit → Except RfError Unit) : Except RfError Unit :=
  (read_local doctr_init_local_names "model_id").bind rest

/-- Fixture: a process state with the bulk source fully available. -/
def stBulk : ProcState := ⟨some "id", some "secret", true, true, "infer-bucket", some "key"⟩

/-- Fixture: a process state with no AWS credentials and no LAMBDA flag. -/
def stNoBulk : ProcState := ⟨none, none, false, false, "infer-bucket", some "key"⟩

/-- Fixture: a world whose ORT response carries a class list and whose bulk download
succeeds. -/
def wOk : ApiWorld :=
  ⟨some ⟨some ["a"], some "https://api.roboflow.com/m", some "https://api.roboflow.com/e", none⟩,
   fun _ => ⟨none, none, none⟩, none, fun _ => false, .ok ()⟩

/-- Fixture: a world whose ORT response carries no class list. -/
def wNoClasses : ApiWorld :=
  ⟨some ⟨none, some "https://api.roboflow.com/m", some "https://api.roboflow.com/e", none⟩,
   fun _ => ⟨none, none, none⟩, none, fun _ => false, .ok ()⟩

/-- Fixture: a world whose bulk S3 download fails. -/
def wFail : ApiWorld :=
  ⟨some ⟨some ["a"], some "https://api.roboflow.com/m", some "https://api.roboflow.com/e", none⟩,
   fun _ => ⟨none, none, none⟩, none, fun _ => false, .error "boom"⟩

/-- Fixture model for the class name claims: environment.json in the manifest,
class_names.txt not. -/
def mEnvOnly : ModelSpec := ⟨["environment.json"], "weights.onnx"⟩

/-- Fixture cache contents with the CLASS_MAP of the worked example. -/
def ccExample : CacheContents :=
  ⟨⟨some (.dict [("2", "cat"), ("0", "dog"), ("1", "bird")]), none, some ⟨none, false⟩⟩, []⟩

/-- The loader output on the worked example fixture. -/
def laExample : LoadedArtefacts :=
  ⟨["dog", "bird", "cat"],
   [("dog", "#4892EA"), ("bird", "#00EEC3"), ("cat", "#FE4EF0")], 3, ⟨none, false⟩, .stretchTo⟩

/-- Fixture image operations on naturals for closed evaluations. -/
def opsNat : ImageOps Nat Nat :=
  ⟨fun i _ => (i, false), fun i _ => (i, (i, i)), fun i _ _ => i, fun i _ _ _ => i,
   fun i => i, fun i => i + 1⟩

/-- Fixture runtime configuration for closed evaluations. -/
def cfgNat : RuntimeConfig := ⟨.stretchTo, 640, 640, false, false⟩

/-- Fixture flags, everything enabled. -/
def flagsNat : PreprocFlags := ⟨false, false, false, false⟩

theorem mem_cacheAdd (c : List String) (f a : String) :
    a ∈ cacheAdd c f ↔ a ∈ c ∨ a = f := by
  unfold cacheAdd
  by_cases h : f ∈ c
  · rw [if_pos h]
    constructor
    · exact Or.inl
    · rintro (h1 | rfl)
      · exact h1
      · exact h
  · rw [if_neg h]
    simp [List.mem_append]

theorem mem_foldl_cacheAdd (files : List String) (cache : List String) (a : String) :
    a ∈ files.foldl cacheAdd cache ↔ a ∈ cache ∨ a ∈ files := by
  induction files generalizing cache with
  | nil => simp
  | cons f fs ih =>
    simp only [List.foldl_cons, ih, mem_cacheAdd, List.mem_cons]
    tauto

theorem are_all_files_cached_iff (files cache : List String) :
    are_all_files_cached files cache = true ↔ ∀ f ∈ files, f ∈ cache := by
  unfold are_all_files_cached
  simp [List.all_eq_true]

theorem are_all_files_cached_sublist (m : ModelSpec) (cache : List String)
    (h : are_all_files_cached (get_all_required_infer_bucket_file m) cache = true) :
    are_all_files_cached m.inferBucketFileList cache = true := by
  rw [are_all_files_cached_iff] at h ⊢
  intro f hf
  exact h f (by simp [get_all_required_infer_bucket_file, List.mem_append, hf])

theorem s3_fetch_ops (st : ProcState) (w : ApiWorld) (m : ModelSpec) (modelId : String)
    (cache : List String) :
    (download_model_artefacts_from_s3 st w m modelId cache).ops
      = [.s3BulkDownload st.INFER_BUCKET
          ((get_all_required_infer_bucket_file m).map (fun f => modelId ++ "/" ++ f))] := by
  unfold download_model_artefacts_from_s3
  cases h : w.s3Result <;> simp [h]

theorem api_fetch_ops (w : ApiWorld) (m : ModelSpec) (modelId : String)
    (cache : List String) :
    (download_model_artefacts_from_roboflow_api w m modelId cache).ops ≠ [] ∧
    ∀ op ∈ (download_model_artefacts_from_roboflow_api w m modelId cache).ops,
      op.isApi = true := by
  unfold download_model_artefacts_from_roboflow_api
  rcases h0 : w.ortData with _ | d
  · refine ⟨by simp, ?_⟩
    intro op hop
    simp at hop
    subst hop
    rfl
  · rcases h1 : d.model with _ | mu <;> simp only [h1]
    · refine ⟨by simp, ?_⟩
      intro op hop
      simp at hop
      subst hop
      rfl
    · rcases h2 : d.environment with _ | eu <;> simp only [h2]
      · refine ⟨by simp, ?_⟩
        intro op hop
        simp at hop
        subst hop
        rfl
      · refine ⟨by simp, ?_⟩
        intro op hop
        simp at hop
        rcases hop with rfl | rfl | rfl <;> rfl

theorem core_weights_download_loop_ops (w : ApiWorld) (modelId : String)
    (entries : List (String × String)) (cache : List String) (ops : List NetOp) :
    ∃ t, (core_weights_download_loop w modelId cache ops entries).2 = ops ++ t := by
  induction entries generalizing cache ops with
  | nil => exact ⟨[], by simp [core_weights_download_loop]⟩
  | cons e rest ih =>
    unfold core_weights_download_loop
    obtain ⟨t, ht⟩ := ih (cacheAdd cache (filename_from_url e.2))
      (ops ++ [NetOp.apiGet e.2]
        ++ (if w.downloadTookLong e.2 then [NetOp.apiModelData "core_model" modelId] else []))
    refine ⟨[NetOp.apiGet e.2]
        ++ (if w.downloadTookLong e.2 then [NetOp.apiModelData "core_model" modelId] else [])
        ++ t, ?_⟩
    rw [ht]
    simp [List.append_assoc]

theorem core_api_fetch_ops_ne_nil (w : ApiWorld) (modelId : String) (cache : List String) :
    (download_mode_from_roboflow_api w modelId cache).ops ≠ [] := by
  unfold download_mode_from_roboflow_api
  rcases h : w.coreWeightsMap with _ | entries
  · simp
  · obtain ⟨t, ht⟩ :=
      core_weights_download_loop_ops w modelId entries cache [NetOp.apiModelData "core_model" modelId]
    simp [ht]

/-- Claim C1 (amended): while a fetch step sees every file of its existence check cached
it returns at once with no network operation — cache_model_artefacts checks the full
manifest and download_weights checks the variant list, which the full manifest contains —
and a second call after a first fetch performs zero network calls whenever the first
fetch left every manifest file cached, in particular always on the bulk S3 path. (The
per file API path may leave class_names.txt uncached, see the counterexample.) -/
theorem claim1_cached_manifest_fetch_noop (st : ProcState) (w : ApiWorld) (m : ModelSpec)
    (modelId : String) (cache : List String) :
    (are_all_files_cached (get_all_required_infer_bucket_file m) cache = true →
      cache_model_artefacts st w m modelId cache = ⟨none, cache, []⟩ ∧
      download_weights st w m modelId cache = ⟨none, cache, []⟩) ∧
    (is_model_artefacts_bucket_available st = true → w.s3Result = .ok () →
      cache_model_artefacts st w m modelId (cache_model_artefacts st w m modelId cache).cache
        = ⟨none, (cache_model_artefacts st w m modelId cache).cache, []⟩) := by
  constructor
  · intro h
    constructor
    · unfold cache_model_artefacts
      rw [if_pos h]
    · unfold download_weights
      rw [if_pos (are_all_files_cached_sublist m cache h)]
  · intro hav hs3
    by_cases h : are_all_files_cached (get_all_required_infer_bucket_file m) cache = true
    · have h1 : cache_model_artefacts st w m modelId cache = ⟨none, cache, []⟩ := by
        unfold cache_model_artefacts
        rw [if_pos h]
      rw [h1]
      exact h1
    · have h1 : cache_model_artefacts st w m modelId cache
          = download_model_artefacts_from_s3 st w m modelId cache := by
        unfold cache_model_artefacts
        rw [if_neg h, if_pos hav]
      have h2 : download_model_artefacts_from_s3 st w m modelId cache
          = ⟨none, (get_all_required_infer_bucket_file m).foldl cacheAdd cache,
             [.s3BulkDownload st.INFER_BUCKET
               ((get_all_required_infer_bucket_file m).map (fun f => modelId ++ "/" ++ f))]⟩ := by
        unfold download_model_artefacts_from_s3
        rw [hs3]
      have h3 : are_all_files_cached (get_all_required_infer_bucket_file m)
          ((get_all_required_infer_bucket_file m).foldl cacheAdd cache) = true := by
        rw [are_all_files_cached_iff]
        intro f hf
        rw [mem_foldl_cacheAdd]
        exact Or.inr hf
      rw [h1, h2]
      unfold cache_model_artefacts
      rw [if_pos h3]

/-- Witness for claim C1 at a concrete state: the bulk source is available and a second
fetch after the first S3 fetch performs zero network operations. -/
theorem claim1_witness :
    is_model_artefacts_bucket_available stBulk = true ∧
    cache_model_artefacts stBulk wOk onnxModelSpec "a/1"
        (cache_model_artefacts stBulk wOk onnxModelSpec "a/1" []).cache
      = ⟨none, (cache_model_artefacts stBulk wOk onnxModelSpec "a/1" []).cache, []⟩ :=
  ⟨by decide,
   (claim1_cached_manifest_fetch_noop stBulk wOk onnxModelSpec "a/1" []).2 (by decide) rfl⟩

/-- Counterexample to claim C1 as stated: with the bulk source unavailable and an API
response that carries no class list, the first fetch succeeds but does not cache
class_names.txt, so the second call performs network operations again. -/
theorem claim1_second_fetch_counterexample :
    (cache_model_artefacts stNoBulk wNoClasses onnxModelSpec "a/1" []).error = none ∧
    (cache_model_artefacts stNoBulk wNoClasses onnxModelSpec "a/1"
        (cache_model_artefacts stNoBulk wNoClasses onnxModelSpec "a/1" []).cache).ops ≠ [] := by
  exact ⟨rfl, by decide⟩

/-- Claim C2: the bulk object store path is available exactly when both AWS credentials
are truthy, the LAMBDA flag is set and the module level S3 client was constructed; on an
incomplete cache an available bulk source makes the fetcher perform exactly the one S3
bulk operation and no per file API operation, while an unavailable bulk source makes it
perform only per file API operations. -/
theorem claim2_bulk_source_dispatch (st : ProcState) (w : ApiWorld) (m : ModelSpec)
    (modelId : String) (cache : List String)
    (hinc : are_all_files_cached (get_all_required_infer_bucket_file m) cache = false) :
    (is_model_artefacts_bucket_available st = true ↔
      (truthyOpt st.AWS_ACCESS_KEY_ID = true ∧ truthyOpt st.AWS_SECRET_ACCESS_KEY = true ∧
        st.LAMBDA = true ∧ (S3_CLIENT st).isSome = true)) ∧
    (is_model_artefacts_bucket_available st = true →
      (cache_model_artefacts st w m modelId cache).ops
        = [.s3BulkDownload st.INFER_BUCKET
            ((get_all_required_infer_bucket_file m).map (fun f => modelId ++ "/" ++ f))] ∧
      ∀ op ∈ (cache_model_artefacts st w m modelId cache).ops, op.isApi = false) ∧
    (is_model_artefacts_bucket_available st = false →
      (cache_model_artefacts st w m modelId cache).ops ≠ [] ∧
      ∀ op ∈ (cache_model_artefacts st w m modelId cache).ops, op.isApi = true) := by
  have hninc : ¬ are_all_files_cached (get_all_required_infer_bucket_file m) cache = true := by
    simp [hinc]
  refine ⟨?_, ?_, ?_⟩
  · unfold is_model_artefacts_bucket_available
    simp [Bool.and_eq_true, and_assoc]
  · intro hav
    have h1 : cache_model_artefacts st w m modelId cache
        = download_model_artefacts_from_s3 st w m modelId cache := by
      unfold cache_model_artefacts
      rw [if_neg hninc, if_pos hav]
    rw [h1, s3_fetch_ops]
    refine ⟨rfl, ?_⟩
    intro op hop
    simp at hop
    subst hop
    rfl
  · intro hav
    have h1 : cache_model_artefacts st w m modelId cache
        = download_model_artefacts_from_roboflow_api w m modelId cache := by
      unfold cache_model_artefacts
      rw [if_neg hninc, if_neg (by simp [hav])]
    rw [h1]
    exact api_fetch_ops w m modelId cache

/-- Witness for claim C2: with full credentials and an empty cache the fetch performs
exactly the single bulk S3 operation. -/
theorem claim2_witness :
    (cache_model_artefacts stBulk wOk onnxModelSpec "a/1" []).ops
      = [.s3BulkDownload stBulk.INFER_BUCKET
          ((get_all_required_infer_bucket_file onnxModelSpec).map (fun f => "a/1" ++ "/" ++ f))] :=
  ((claim2_bulk_source_dispatch stBulk wOk onnxModelSpec "a/1" [] (by decide)).2.1 (by decide)).1

/-- Claim C3 (amended): with an incomplete cache and the bulk source available, a failing
S3 bulk download surfaces as ModelArtefactError (not as the ArtifactDownloadError the
design document names) and the fetcher performs no per file API operation — there is no
fallback once bulk mode was selected. -/
theorem claim3_s3_failure_error_kind (st : ProcState) (w : ApiWorld) (m : ModelSpec)
    (modelId : String) (cache : List String) (e : String)
    (hinc : are_all_files_cached (get_all_required_infer_bucket_file m) cache = false)
    (hav : is_model_artefacts_bucket_available st = true)
    (hs3 : w.s3Result = .error e) :
    cache_model_artefacts st w m modelId cache
      = ⟨some (.modelArtefactError ("Could not obtain model artefacts from S3. Cause: " ++ e)),
         cache,
         [.s3BulkDownload st.INFER_BUCKET
           ((get_all_required_infer_bucket_file m).map (fun f => modelId ++ "/" ++ f))]⟩ := by
  unfold cache_model_artefacts
  rw [if_neg (by simp [hinc]), if_pos hav]
  unfold download_model_artefacts_from_s3
  rw [hs3]

/-- Witness for claim C3 at a concrete failing world. -/
theorem claim3_witness :
    cache_model_artefacts stBulk wFail onnxModelSpec "a/1" []
      = ⟨some (.modelArtefactError ("Could not obtain model artefacts from S3. Cause: " ++ "boom")),
         [],
         [.s3BulkDownload "infer-bucket"
           ((get_all_required_infer_bucket_file onnxModelSpec).map (fun f => "a/1" ++ "/" ++ f))]⟩ :=
  claim3_s3_failure_error_kind stBulk wFail onnxModelSpec "a/1" [] "boom" (by decide) (by decide) rfl

/-- Counterexample to claim C3 as stated: the surfaced exception on a failing bulk
download is ModelArtefactError, not ArtifactDownloadError. -/
theorem claim3_error_kind_counterexample :
    (cache_model_artefacts stBulk wFail onnxModelSpec "a/1" []).error
      = some (.modelArtefactError "Could not obtain model artefacts from S3. Cause: boom") ∧
    ((cache_model_artefacts stBulk wFail onnxModelSpec "a/1" []).error.map
        RfError.isArtifactDownloadError) = some false := by
  exact ⟨by decide, by decide⟩

/-- Claim C10: every call of the DocTR constructor raises UnboundLocalError on the local
model_id, read before any assignment to it, whatever the rest of the body would do. -/
theorem claim10_doctr_init_raises (rest : Unit → Except RfError Unit) :
    DocTR_init rest = .error (.unboundLocalError "model_id") := rfl

/-- Witness for claim C10 with a concrete continuation. -/
theorem claim10_witness :
    DocTR_init (fun _ => .ok ()) = .error (.unboundLocalError "model_id") :=
  claim10_doctr_init_raises (fun _ => .ok ())

/-- Claim C4: when class_names.txt is not part of the manifest (and environment.json is),
the loaded class names are the CLASS_MAP values in lexicographic string key order; on the
worked example the order is dog, bird, cat, and on two digit keys the order is the string
order ten before nine, not the numeric one. -/
theorem claim4_class_names_lexicographic (m : ModelSpec) (cc : CacheContents)
    (la : LoadedArtefacts)
    (hfile : "class_names.txt" ∉ get_all_required_infer_bucket_file m)
    (henv : "environment.json" ∈ get_all_required_infer_bucket_file m)
    (hmap : cc.environment.CLASS_MAP = some (.dict [("2", "cat"), ("0", "dog"), ("1", "bird")]))
    (hok : load_model_artefacts_from_cache m cc = .ok la) :
    la.class_names = ["dog", "bird", "cat"] ∧
    get_class_names_from_environment_file
        (some ⟨some (.dict [("10", "ten"), ("9", "nine")]), none, none⟩)
      = .ok ["ten", "nine"] := by
  refine ⟨?_, by rfl⟩
  have hcn : get_class_names_from_environment_file (some cc.environment)
      = .ok ["dog", "bird", "cat"] := by
    simp only [get_class_names_from_environment_file]
    rw [hmap]
    rfl
  simp only [load_model_artefacts_from_cache, if_pos henv, if_neg hfile, getAttr, hcn,
    bind, Except.bind] at hok
  rcases hcol : get_color_mapping_from_environment (some cc.environment) ["dog", "bird", "cat"]
    with e | col <;> rw [hcol] at hok
  · exact absurd hok (by simp)
  · rcases hpre : cc.environment.PREPROCESSING with _ | p <;> rw [hpre] at hok
    · exact absurd hok (by simp)
    · simp only [pure, Except.pure, Except.ok.injEq] at hok
      rw [← hok]

/-- Witness for claim C4 on the worked example fixture. -/
theorem claim4_witness :
    load_model_artefacts_from_cache mEnvOnly ccExample = .ok laExample ∧
    laExample.class_names = ["dog", "bird", "cat"] :=
  ⟨rfl,
   (claim4_class_names_lexicographic mEnvOnly ccExample laExample (by decide) (by decide)
     rfl rfl).1⟩

/-- Claim C5: with a symbolic reported height or width, the resolved height and width are
the declared resize height and width when the spec declares a resize step and both 640
otherwise; a symbolic batch dimension enables dynamic batching and an integer batch
dimension n disables it with fixed batch size n. -/
theorem claim5_geometry_resolution (input_shape : InputShape) (preproc : Preproc)
    (hsym : input_shape.d2.isStr = true ∨ input_shape.d3.isStr = true) :
    (∀ r, preproc.resize = some r →
      (resolve_input_geometry input_shape preproc).img_size_h = r.height ∧
      (resolve_input_geometry input_shape preproc).img_size_w = r.width) ∧
    (preproc.resize = none →
      (resolve_input_geometry input_shape preproc).img_size_h = 640 ∧
      (resolve_input_geometry input_shape preproc).img_size_w = 640) ∧
    (∀ s, input_shape.d0 = .symbolic s →
      (resolve_input_geometry input_shape preproc).batching_enabled = true) ∧
    (∀ n, input_shape.d0 = .concrete n →
      (resolve_input_geometry input_shape preproc).batching_enabled = false ∧
      (resolve_input_geometry input_shape preproc).batch_size = .concrete n) := by
  obtain ⟨d0, d1, d2, d3⟩ := input_shape
  simp only [OnnxDim.isStr] at hsym
  refine ⟨?_, ?_, ?_, ?_⟩
  · intro r hr
    cases d2 <;> cases d3 <;> simp_all [resolve_input_geometry]
  · intro hr
    cases d2 <;> cases d3 <;> simp_all [resolve_input_geometry]
  · intro s hs
    subst hs
    simp [resolve_input_geometry]
  · intro n hn
    subst hn
    simp [resolve_input_geometry]

/-- Witness for claim C5 at a shape with symbolic batch, height and width and no resize
step. -/
theorem claim5_witness :
    (resolve_input_geometry ⟨.symbolic "batch", .concrete 3, .symbolic "height", .symbolic "width"⟩
        ⟨none, false⟩).img_size_h = 640 ∧
    (resolve_input_geometry ⟨.symbolic "batch", .concrete 3, .symbolic "height", .symbolic "width"⟩
        ⟨none, false⟩).batching_enabled = true :=
  ⟨((claim5_geometry_resolution ⟨.symbolic "batch", .concrete 3, .symbolic "height",
      .symbolic "width"⟩ ⟨none, false⟩ (Or.inl rfl)).2.1 rfl).1,
   (claim5_geometry_resolution ⟨.symbolic "batch", .concrete 3, .symbolic "height",
      .symbolic "width"⟩ ⟨none, false⟩ (Or.inl rfl)).2.2.1 "batch" rfl⟩

/-- Claim C6, evaluation at the failing input and the palette side: with an explicit
COLORS dict in the environment the code raises TypeError from json.loads instead of
using the mapping; without a COLORS entry ten classes cycle the nine entry palette, so
class index 0 and class index 9 both receive the first palette color. -/
theorem claim6_colors_evaluation :
    get_color_mapping_from_environment (some ⟨none, some [("cat", "#FFFFFF")], none⟩) ["cat"]
      = .error (.typeError "the JSON object must be str, bytes or bytearray, not dict") ∧
    get_color_mapping_from_environment (some ⟨none, none, none⟩)
        ["c0", "c1", "c2", "c3", "c4", "c5", "c6", "c7", "c8", "c9"]
      = .ok [("c0", "#4892EA"), ("c1", "#00EEC3"), ("c2", "#FE4EF0"), ("c3", "#F4004E"),
             ("c4", "#FA7200"), ("c5", "#EEEE17"), ("c6", "#90FF00"), ("c7", "#78C1D2"),
             ("c8", "#8C29FF"), ("c9", "#4892EA")] := by
  exact ⟨rfl, rfl⟩

theorem flatten_singletons_length {α β : Type} (g : α → β) (l : List α) :
    ((l.map (fun a => [g a])).flatten).length = l.length := by
  induction l with
  | nil => rfl
  | cons x xs ih => simp [ih]

theorem flatten_singletons_get? {α β : Type} (g : α → β) (l : List α) (i : Nat) :
    ((l.map (fun a => [g a])).flatten).get? i = (l.get? i).map g := by
  induction l generalizing i with
  | nil => simp
  | cons x xs ih =>
    cases i with
    | zero => rfl
    | succ n => simpa using ih n

theorem preproc_image_maps_fst {Img Slice : Type} (ops : ImageOps Img Slice)
    (cfg : RuntimeConfig) (flags : PreprocFlags) (images : List Img) :
    (images.map (preproc_image ops cfg flags)).map Prod.fst
      = images.map (fun im => [(preproc_image_core ops cfg flags im).1]) := by
  induction images with
  | nil => rfl
  | cons x xs ih => simp only [List.map_cons, ih, preproc_image]

theorem preproc_image_maps_snd {Img Slice : Type} (ops : ImageOps Img Slice)
    (cfg : RuntimeConfig) (flags : PreprocFlags) (images : List Img) :
    (images.map (preproc_image ops cfg flags)).map Prod.snd
      = images.map (fun im => (preproc_image_core ops cfg flags im).2) := by
  induction images with
  | nil => rfl
  | cons x xs ih => simp only [List.map_cons, ih, preproc_image]

/-- Claim C7: preprocessing a nonempty list of N images yields one tensor with batch size
N whose slice at index i is the preprocessing of the image at index i, with the original
dimension list in the same input order, and a single image through the same call path
yields the same per image tensor with a batch axis of size one; the list of one image and
the single image agree. -/
theorem claim7_batch_order (Img Slice : Type) (ops : ImageOps Img Slice)
    (cfg : RuntimeConfig) (flags : PreprocFlags) (images : List Img) (image : Img)
    (himgs : images ≠ []) :
    (∃ t, load_image_onnx ops cfg flags (Sum.inr images)
        = .ok (t, images.map (fun im => (preproc_image_core ops cfg flags im).2)) ∧
      t.length = images.length ∧
      ∀ i, t.get? i = (images.get? i).map (fun im => (preproc_image_core ops cfg flags im).1)) ∧
    load_image_onnx ops cfg flags (Sum.inl image)
      = .ok ((preproc_image ops cfg flags image).1, [(preproc_image ops cfg flags image).2]) ∧
    (preproc_image ops cfg flags image).1.length = 1 ∧
    load_image_onnx ops cfg flags (Sum.inr [image]) = load_image_onnx ops cfg flags (Sum.inl image) := by
  refine ⟨?_, rfl, rfl, ?_⟩
  · refine ⟨((images.map (preproc_image ops cfg flags)).map Prod.fst).flatten, ?_, ?_, ?_⟩
    · simp only [load_image_onnx]
      rw [if_neg (by simpa using himgs), preproc_image_maps_snd]
    · rw [preproc_image_maps_fst, flatten_singletons_length]
    · intro i
      rw [preproc_image_maps_fst, flatten_singletons_get?]
  · simp [load_image_onnx, preproc_image]

/-- Witness for claim C7 on a concrete two image batch over naturals. -/
theorem claim7_witness :
    load_image_onnx opsNat cfgNat flagsNat (Sum.inr [1, 2]) = .ok ([2, 3], [(1, 1), (2, 2)]) ∧
    load_image_onnx opsNat cfgNat flagsNat (Sum.inr [5]) = load_image_onnx opsNat cfgNat flagsNat (Sum.inl 5) :=
  ⟨rfl, (claim7_batch_order Nat Nat opsNat cfgNat flagsNat [1, 2] 5 (by simp)).2.2.2⟩

/-- Claim C8 (amended): cache_model_artefacts skips fetching exactly when the composed
manifest (variant list plus weights file name) is fully cached, while download_weights
skips exactly when the variant list alone is cached, without the weights file name; the
bulk S3 fetch writes exactly the manifest files; the per file API fetch writes the
weights file and environment.json, and class_names.txt only when the response carries a
class list. No file outside these lists is consulted or required. -/
theorem claim8_manifest_checks (st : ProcState) (w : ApiWorld) (m : ModelSpec)
    (modelId : String) (cache : List String) :
    ((cache_model_artefacts st w m modelId cache).ops = [] ↔
      are_all_files_cached (get_all_required_infer_bucket_file m) cache = true) ∧
    ((download_weights st w m modelId cache).ops = [] ↔
      are_all_files_cached m.inferBucketFileList cache = true) ∧
    (w.s3Result = .ok () → ∀ f,
      (f ∈ (download_model_artefacts_from_s3 st w m modelId cache).cache ↔
        f ∈ cache ∨ f ∈ get_all_required_infer_bucket_file m)) ∧
    (∀ d, w.ortData = some d → ∀ f,
      (f ∈ (download_model_artefacts_from_roboflow_api w m modelId cache).cache ↔
        f ∈ cache ∨ (f = "class_names.txt" ∧ d.classes.isSome = true) ∨
          (d.model.isSome = true ∧ d.environment.isSome = true ∧
            (f = m.weightsFile ∨ f = "environment.json")))) := by
  refine ⟨?_, ?_, ?_, ?_⟩
  · by_cases hc : are_all_files_cached (get_all_required_infer_bucket_file m) cache = true
    · have h1 : cache_model_artefacts st w m modelId cache = ⟨none, cache, []⟩ := by
        unfold cache_model_artefacts
        rw [if_pos hc]
      rw [h1]
      simp [hc]
    · by_cases hav : is_model_artefacts_bucket_available st = true
      · have h1 : cache_model_artefacts st w m modelId cache
            = download_model_artefacts_from_s3 st w m modelId cache := by
          unfold cache_model_artefacts
          rw [if_neg hc, if_pos hav]
        rw [h1, s3_fetch_ops]
        exact iff_of_false (by simp) hc
      · have h1 : cache_model_artefacts st w m modelId cache
            = download_model_artefacts_from_roboflow_api w m modelId cache := by
          unfold cache_model_artefacts
          rw [if_neg hc, if_neg hav]
        rw [h1]
        exact iff_of_false (api_fetch_ops w m modelId cache).1 hc
  · by_cases hc : are_all_files_cached m.inferBucketFileList cache = true
    · have h1 : download_weights st w m modelId cache = ⟨none, cache, []⟩ := by
        unfold download_weights
        rw [if_pos hc]
      rw [h1]
      simp [hc]
    · by_cases hav : is_model_artefacts_bucket_available st = true
      · have h1 : download_weights st w m modelId cache
            = download_model_artefacts_from_s3 st w m modelId cache := by
          unfold download_weights
          rw [if_neg hc, if_pos hav]
        rw [h1, s3_fetch_ops]
        exact iff_of_false (by simp) hc
      · have h1 : download_weights st w m modelId cache
            = download_mode_from_roboflow_api w modelId cache := by
          unfold download_weights
          rw [if_neg hc, if_neg hav]
        rw [h1]
        exact iff_of_false (core_api_fetch_ops_ne_nil w modelId cache) hc
  · intro hs3 f
    unfold download_model_artefacts_from_s3
    rw [hs3]
    exact mem_foldl_cacheAdd (get_all_required_infer_bucket_file m) cache f
  · intro d hd f
    unfold download_model_artefacts_from_roboflow_api
    rw [hd]
    rcases hcl : d.classes with _ | cl <;> rcases hm : d.model with _ | mu <;>
      rcases he : d.environment with _ | eu <;>
        simp only [hcl, hm, he] <;> simp [mem_cacheAdd] <;> tauto

/-- Witness for claim C8: after a successful bulk fetch from the empty cache the file
class_names.txt is present exactly because it is a manifest member. -/
theorem claim8_witness :
    "class_names.txt" ∈ (download_model_artefacts_from_s3 stBulk wOk onnxModelSpec "a/1" []).cache ↔
      "class_names.txt" ∈ ([] : List String) ∨
        "class_names.txt" ∈ get_all_required_infer_bucket_file onnxModelSpec :=
  (claim8_manifest_checks stBulk wOk onnxModelSpec "a/1" []).2.2.1 rfl "class_names.txt"

/-- Counterexample to claim C8 as stated: a successful per file API fetch whose response
lacks the class list does not download the manifest member class_names.txt; and
download_weights skips fetching although the composed manifest is not fully cached,
because its existence test omits the weights file name. -/
theorem claim8_counterexample :
    ((download_model_artefacts_from_roboflow_api wNoClasses onnxModelSpec "a/1" []).error = none ∧
     "class_names.txt" ∈ get_all_required_infer_bucket_file onnxModelSpec ∧
     "class_names.txt" ∉ (download_model_artefacts_from_roboflow_api wNoClasses onnxModelSpec "a/1" []).cache) ∧
    (are_all_files_cached (get_all_required_infer_bucket_file onnxModelSpec)
        ["environment.json", "class_names.txt"] = false ∧
     (download_weights stNoBulk wNoClasses onnxModelSpec "a/1"
        ["environment.json", "class_names.txt"]).ops = []) := by
  exact ⟨⟨rfl, by decide, by decide⟩, ⟨by decide, rfl⟩⟩

/-- Claim C9 (amended): given a truthy per request API key, constructing a model from a
model_id string succeeds exactly when the string splits at the slash into exactly two
segments; no separator or more than one separator fails with ValueError, but the
segments themselves may be empty. -/
theorem claim9_model_id_segments (st : ProcState) (model_id : String) (api_key : Option String)
    (hkey : truthyOpt api_key = true) :
    exceptIsOk (roboflow_model_init st model_id api_key) = true ↔
      (py_split '/' model_id).length = 2 := by
  simp only [roboflow_model_init, hkey, if_true, Bool.not_true, Bool.false_and,
    Bool.not_false, if_false]
  unfold parse_model_id
  rcases h : py_split '/' model_id with _ | ⟨a, _ | ⟨b, _ | ⟨c, t⟩⟩⟩ <;>
    simp [exceptIsOk, h]

/-- Witness for claim C9: a two segment model_id constructs successfully. -/
theorem claim9_witness :
    exceptIsOk (roboflow_model_init stNoBulk "dataset/1" (some "key")) = true :=
  (claim9_model_id_segments stNoBulk "dataset/1" (some "key") (by decide)).mpr (by decide)

/-- Counterexample to claim C9 as stated: the model_id with an empty version segment
splits into two segments and construction succeeds instead of failing. -/
theorem claim9_counterexample :
    roboflow_model_init stNoBulk "a/" (some "key") = .ok ("a", "") := rfl
